import Mathlib

/-!
Verification development for the r-mmdc memory-controller profiler
(src/main.rs).  The program samples the MMDC hardware performance
counters over a memory-mapped register block and derives utilization
metrics.  The derivation in `get_mmdc_profiling_results` and the
report-time throughput math in `print_profiling_results` are performed
in IEEE-754 single precision (`f32`), so this file first builds an
exact model of binary32 round-to-nearest-even arithmetic over `ℚ`,
then embeds the register block, the metric derivation, the
measuring-cycle write protocol, option application, and the
SoC-revision identification routine.
-/

/- ### Exact IEEE-754 binary32 model -/

/-- Fuel-driven base-2 logarithm (structural recursion on the fuel so the
kernel can evaluate it on large literals). -/
def log2fuel : Nat → Nat → Nat
  | 0, _ => 0
  | fuel + 1, n => if n < 2 then 0 else log2fuel fuel (n / 2) + 1

/-- Floor of the base-2 logarithm of a natural number. -/
def natLog2 (n : Nat) : Nat := log2fuel n n

/-- Floor of a rational, computed with euclidean integer division. -/
def qfloor (q : ℚ) : ℤ := q.num / (q.den : ℤ)

/-- Round a rational to the nearest integer, ties to even. -/
def rne (x : ℚ) : ℤ :=
  if x - qfloor x < 1 / 2 then qfloor x
  else if 1 / 2 < x - qfloor x then qfloor x + 1
  else if qfloor x % 2 = 0 then qfloor x else qfloor x + 1

/-- Floor of the base-2 logarithm of a positive rational, computed by
scaling into the integers.  Only meaningful for arguments that are not
vanishingly small (we use it for values at least `2 ^ (-100)`). -/
def floorLog2Q (q : ℚ) : ℤ :=
  (natLog2 (qfloor (q * 2 ^ (200 : ℕ))).toNat : ℤ) - 200

/-- Largest finite binary32 value. -/
def maxF32 : ℚ := (2 ^ 24 - 1) * 2 ^ 104

/-- Quantum exponent used by binary32 for a value whose binary magnitude
exponent is `e`: subnormals use `2 ^ (-149)`, normals `2 ^ (e - 23)`. -/
def f32scale (e : ℤ) : ℤ := if e < -126 then -149 else e - 23

/-- The rational obtained by rounding `q` to the binary32 grid with
round-to-nearest-even (before the overflow check). -/
def f32val (q : ℚ) : ℚ :=
  (rne (q * 2 ^ (-f32scale (floorLog2Q |q|))) : ℚ) * 2 ^ f32scale (floorLog2Q |q|)

/-- An `f32` value as it occurs in this program: a finite value (held as
the exact rational it denotes), positive infinity, or NaN.  All counter
values in the profiler are nonnegative, so negative infinities and the
sign of zero never arise and are not distinguished. -/
inductive F32 where
  | finite (val : ℚ)
  | inf
  | nan
deriving DecidableEq

/-- Round a rational to binary32 (round-to-nearest-even, overflow to
infinity).  In this program every rounded quantity is nonnegative. -/
def roundF32 (q : ℚ) : F32 :=
  if q = 0 then .finite 0
  else if maxF32 < f32val q then .inf
  else .finite (f32val q)

/-- Rust `n as f32` on an unsigned counter value (round to nearest even). -/
def u32toF32 (n : Nat) : F32 := roundF32 (n : ℚ)

/-- IEEE binary32 addition (both operands nonnegative in this program,
so `inf + inf = inf` and no `-inf` cases arise). -/
def F32.add : F32 → F32 → F32
  | .nan, _ => .nan
  | _, .nan => .nan
  | .inf, _ => .inf
  | _, .inf => .inf
  | .finite a, .finite b => roundF32 (a + b)

/-- IEEE binary32 multiplication on nonnegative operands. -/
def F32.mul : F32 → F32 → F32
  | .nan, _ => .nan
  | _, .nan => .nan
  | .inf, .finite b => if b = 0 then .nan else .inf
  | .finite a, .inf => if a = 0 then .nan else .inf
  | .inf, .inf => .inf
  | .finite a, .finite b => roundF32 (a * b)

/-- IEEE binary32 division on nonnegative operands: `x / 0 = inf` for
`x ≠ 0`, `0 / 0 = NaN`. -/
def F32.div : F32 → F32 → F32
  | .nan, _ => .nan
  | _, .nan => .nan
  | .inf, .inf => .nan
  | .inf, .finite _ => .inf
  | .finite _, .inf => .finite 0
  | .finite a, .finite b =>
    if b = 0 then (if a = 0 then .nan else .inf) else roundF32 (a / b)

/-- Rust `x as u32` on an `f32`: saturating conversion truncating toward
zero; NaN converts to 0, positive infinity to `u32::MAX`. -/
def f32toU32 (x : F32) : Nat :=
  match x with
  | .nan => 0
  | .inf => 4294967295
  | .finite q => min (qfloor q).toNat 4294967295

/- ### Register block layout (struct MMDC in src/main.rs) -/

/-- The MMDC register overlay from src/main.rs: all named 32-bit fields in
source order, with the two reserved filler regions kept as 239-slot maps.
Field values are the natural numbers held in the `u32` registers. -/
structure MMDC where
  mdctl : Nat
  mdpdc : Nat
  mdotc : Nat
  mdcfg0 : Nat
  mdcfg1 : Nat
  mdcfg2 : Nat
  mdmisc : Nat
  mdscr : Nat
  mdref : Nat
  mdwcc : Nat
  mdrcc : Nat
  mdrwd : Nat
  mdor : Nat
  mdmrr : Nat
  mdcfg3lp : Nat
  mdmr4 : Nat
  mdasp : Nat
  adopt_base_offset_fill : Fin 239 → Nat
  maarcr : Nat
  mapsr : Nat
  maexidr0 : Nat
  maexidr1 : Nat
  madpcr0 : Nat
  madpcr1 : Nat
  madpsr0 : Nat
  madpsr1 : Nat
  madpsr2 : Nat
  madpsr3 : Nat
  madpsr4 : Nat
  madpsr5 : Nat
  masbs0 : Nat
  masbs1 : Nat
  ma_reserved1 : Nat
  ma_reserved2 : Nat
  magenp : Nat
  phy_base_offset_fill : Fin 239 → Nat
  mpzqhwctrl : Nat
  mpzqswctrl : Nat
  mpwlgcr : Nat
  mpwldectrl0 : Nat
  mpwldectrl1 : Nat
  mpwldlst : Nat
  mpodtctrl : Nat
  mpredqby0dl : Nat
  mpredqby1dl : Nat
  mpredqby2dl : Nat
  mpredqby3dl : Nat
  mpwrdqby0dl : Nat
  mpwrdqby1dl : Nat
  mpwrdqby2dl : Nat
  mpwrdqby3dl : Nat
  mpdgctrl0 : Nat
  mpdgctrl1 : Nat
  mpdgdlst : Nat
  mprddlctl : Nat
  mprddlst : Nat
  mpwrdlctl : Nat
  mpwrdlst : Nat
  mpsdctrl : Nat
  mpzqlp2ctl : Nat
  mprddlhwctl : Nat
  mpwrdlhwctl : Nat
  mprddlhwst0 : Nat
  mprddlhwst1 : Nat
  mpwrdlhwst0 : Nat
  mpwrdlhwst1 : Nat
  mpwlhwerr : Nat
  mpdghwst0 : Nat
  mpdghwst1 : Nat
  mpdghwst2 : Nat
  mpdghwst3 : Nat
  mppdcmpr1 : Nat
  mppdcmpr2 : Nat
  mpswdar : Nat
  mpswdrdr0 : Nat
  mpswdrdr1 : Nat
  mpswdrdr2 : Nat
  mpswdrdr3 : Nat
  mpswdrdr4 : Nat
  mpswdrdr5 : Nat
  mpswdrdr6 : Nat
  mpswdrdr7 : Nat
  mpmur : Nat
  mpwrcadl : Nat
  mpdccr : Nat
  mpbc : Nat

/-- A register-block state with every register zero. -/
def MMDC.zero : MMDC where
  mdctl := 0
  mdpdc := 0
  mdotc := 0
  mdcfg0 := 0
  mdcfg1 := 0
  mdcfg2 := 0
  mdmisc := 0
  mdscr := 0
  mdref := 0
  mdwcc := 0
  mdrcc := 0
  mdrwd := 0
  mdor := 0
  mdmrr := 0
  mdcfg3lp := 0
  mdmr4 := 0
  mdasp := 0
  adopt_base_offset_fill := fun _ => 0
  maarcr := 0
  mapsr := 0
  maexidr0 := 0
  maexidr1 := 0
  madpcr0 := 0
  madpcr1 := 0
  madpsr0 := 0
  madpsr1 := 0
  madpsr2 := 0
  madpsr3 := 0
  madpsr4 := 0
  madpsr5 := 0
  masbs0 := 0
  masbs1 := 0
  ma_reserved1 := 0
  ma_reserved2 := 0
  magenp := 0
  phy_base_offset_fill := fun _ => 0
  mpzqhwctrl := 0
  mpzqswctrl := 0
  mpwlgcr := 0
  mpwldectrl0 := 0
  mpwldectrl1 := 0
  mpwldlst := 0
  mpodtctrl := 0
  mpredqby0dl := 0
  mpredqby1dl := 0
  mpredqby2dl := 0
  mpredqby3dl := 0
  mpwrdqby0dl := 0
  mpwrdqby1dl := 0
  mpwrdqby2dl := 0
  mpwrdqby3dl := 0
  mpdgctrl0 := 0
  mpdgctrl1 := 0
  mpdgdlst := 0
  mprddlctl := 0
  mprddlst := 0
  mpwrdlctl := 0
  mpwrdlst := 0
  mpsdctrl := 0
  mpzqlp2ctl := 0
  mprddlhwctl := 0
  mpwrdlhwctl := 0
  mprddlhwst0 := 0
  mprddlhwst1 := 0
  mpwrdlhwst0 := 0
  mpwrdlhwst1 := 0
  mpwlhwerr := 0
  mpdghwst0 := 0
  mpdghwst1 := 0
  mpdghwst2 := 0
  mpdghwst3 := 0
  mppdcmpr1 := 0
  mppdcmpr2 := 0
  mpswdar := 0
  mpswdrdr0 := 0
  mpswdrdr1 := 0
  mpswdrdr2 := 0
  mpswdrdr3 := 0
  mpswdrdr4 := 0
  mpswdrdr5 := 0
  mpswdrdr6 := 0
  mpswdrdr7 := 0
  mpmur := 0
  mpwrcadl := 0
  mpdccr := 0
  mpbc := 0

/- ### Profiling result derivation (get_mmdc_profiling_results) -/

/-- `MMDCProfileResult` from src/main.rs; `#[derive(Default)]` gives all
fields a zero default. -/
structure MMDCProfileResult where
  total_cycles : Nat
  busy_cycles : Nat
  read_accesses : Nat
  write_accesses : Nat
  read_bytes : Nat
  write_bytes : Nat
  data_load : Nat
  utilization : Nat
  access_utilization : Nat
  avg_write_burstsize : Nat
  avg_read_burstsize : Nat
deriving DecidableEq

/-- The all-zero `MMDCProfileResult::default()`. -/
def MMDCProfileResult.zeroDefault : MMDCProfileResult where
  total_cycles := 0
  busy_cycles := 0
  read_accesses := 0
  write_accesses := 0
  read_bytes := 0
  write_bytes := 0
  data_load := 0
  utilization := 0
  access_utilization := 0
  avg_write_burstsize := 0
  avg_read_burstsize := 0

/-- `get_mmdc_profiling_results` from src/main.rs.  The raw counters are
copied from `madpsr0..madpsr5`; when at least one byte counter is nonzero
the three ratio metrics are computed in `f32` and cast back to `u32`;
the two burst sizes use guarded `u32` integer division.  Fields that the
source leaves untouched keep the `Default` value 0. -/
def get_mmdc_profiling_results (mmdc : MMDC) : MMDCProfileResult where
  total_cycles := mmdc.madpsr0
  busy_cycles := mmdc.madpsr1
  read_accesses := mmdc.madpsr2
  write_accesses := mmdc.madpsr3
  read_bytes := mmdc.madpsr4
  write_bytes := mmdc.madpsr5
  utilization :=
    if mmdc.madpsr4 ≠ 0 ∨ mmdc.madpsr5 ≠ 0 then
      f32toU32 (F32.mul
        (F32.div (F32.add (u32toF32 mmdc.madpsr4) (u32toF32 mmdc.madpsr5))
          (F32.mul (u32toF32 mmdc.madpsr1) (F32.finite 16)))
        (F32.finite 100))
    else 0
  data_load :=
    if mmdc.madpsr4 ≠ 0 ∨ mmdc.madpsr5 ≠ 0 then
      f32toU32 (F32.mul (F32.div (u32toF32 mmdc.madpsr1) (u32toF32 mmdc.madpsr0))
        (F32.finite 100))
    else 0
  access_utilization :=
    if mmdc.madpsr4 ≠ 0 ∨ mmdc.madpsr5 ≠ 0 then
      f32toU32 (F32.div (F32.add (u32toF32 mmdc.madpsr4) (u32toF32 mmdc.madpsr5))
        (F32.add (u32toF32 mmdc.madpsr2) (u32toF32 mmdc.madpsr3)))
    else 0
  avg_write_burstsize := if 0 < mmdc.madpsr3 then mmdc.madpsr5 / mmdc.madpsr3 else 0
  avg_read_burstsize := if 0 < mmdc.madpsr2 then mmdc.madpsr4 / mmdc.madpsr2 else 0

/- ### Measuring-cycle control protocol -/

/-- Observable actions of one measuring cycle against the register block:
a plain store to the control register `madpcr0` (each store in the source
is followed by an `msync` flush of that register), an OR-update of
`madpcr0`, the blocking sleep, and the counter-snapshot read performed by
`get_mmdc_profiling_results`. -/
inductive MMDCEvent where
  | ctrlWrite (value : Nat)
  | ctrlOr (value : Nat)
  | sleep (ms : Nat)
  | counterRead
deriving DecidableEq

/-- `clear_mmdc` from src/main.rs: store 0xA (reset counters, clear
overflow) to `madpcr0`. -/
def clear_mmdc (mmdc : MMDC) : MMDC × List MMDCEvent :=
  ({ mmdc with madpcr0 := 0xA }, [.ctrlWrite 0xA])

/-- `start_mmdc_profiling` from src/main.rs: store 0xA (reset counters,
clear overflow) and then 0x1 (enable counters) to `madpcr0`. -/
def start_mmdc_profiling (mmdc : MMDC) : MMDC × List MMDCEvent :=
  ({ mmdc with madpcr0 := 0x1 }, [.ctrlWrite 0xA, .ctrlWrite 0x1])

/-- `load_mmdc_results` from src/main.rs: OR the PRF_FRZ bit 0x4 into
`madpcr0` to freeze/load the counters. -/
def load_mmdc_results (mmdc : MMDC) : MMDC × List MMDCEvent :=
  ({ mmdc with madpcr0 := mmdc.madpcr0 ||| 0x4 }, [.ctrlOr 0x4])

/-- `stop_mmdc_profiling` from src/main.rs: store 0x0 (disable counters)
to `madpcr0`. -/
def stop_mmdc_profiling (mmdc : MMDC) : MMDC × List MMDCEvent :=
  ({ mmdc with madpcr0 := 0x0 }, [.ctrlWrite 0x0])

/-- The call `get_mmdc_profiling_results(mmdc)` inside the cycle: it takes
the register block by shared reference, so it reads the counter snapshot
and leaves every register unchanged. -/
def derive_step (mmdc : MMDC) : MMDC × MMDCProfileResult × List MMDCEvent :=
  (mmdc, get_mmdc_profiling_results mmdc, [.counterRead])

/-- `do_measuring_cylce` from src/main.rs (source spelling kept): clear,
start, sleep for the configured duration, freeze/load, derive the result
from the frozen counters, stop.  Returns the final register state, the
derived result handed to `print_profiling_results`, and the event trace. -/
def do_measuring_cylce (mmdc : MMDC) (sleeptime : Nat) :
    MMDC × MMDCProfileResult × List MMDCEvent :=
  let c := clear_mmdc mmdc
  let s := start_mmdc_profiling c.1
  let l := load_mmdc_results s.1
  let d := derive_step l.1
  let st := stop_mmdc_profiling d.1
  (st.1, d.2.1, c.2 ++ s.2 ++ [.sleep sleeptime] ++ l.2 ++ d.2.2 ++ st.2)

/- ### Option application (apply_options) -/

/-- `apply_options` from src/main.rs: store the optional `-m` value into
the `madpcr1` field, or 0 when the option is absent (the register is
overwritten either way); no other field is touched. -/
def apply_options (mmdc : MMDC) (madpcr1_opt : Option Nat) : MMDC :=
  { mmdc with
    madpcr1 :=
      match madpcr1_opt with
      | some addr => addr
      | none => 0 }

/- ### Report-time throughput math (print_profiling_results) -/

/-- The three MB/s figures computed by `print_profiling_results` in
src/main.rs, in `f32`, from the profile result and the elapsed
milliseconds.  Note the source computes `avg_read` from `write_bytes`. -/
structure PrintedRates where
  avg_read : F32
  avg_write : F32
  total : F32
deriving DecidableEq

/-- The rate computations at the top of `print_profiling_results`:
`avg_read = write_bytes * 1000 / (1024 * 1024 * time)` (sic),
`avg_write = write_bytes * 1000 / (1024 * 1024 * time)`,
`total = (write_bytes + read_bytes) * 1000 / (1024 * 1024 * time)`. -/
def print_profiling_results_rates (r : MMDCProfileResult) (time : Nat) : PrintedRates where
  avg_read :=
    F32.div (F32.mul (u32toF32 r.write_bytes) (F32.finite 1000))
      (F32.mul (F32.mul (F32.finite 1024) (F32.finite 1024)) (u32toF32 time))
  avg_write :=
    F32.div (F32.mul (u32toF32 r.write_bytes) (F32.finite 1000))
      (F32.mul (F32.mul (F32.finite 1024) (F32.finite 1024)) (u32toF32 time))
  total :=
    F32.div (F32.mul (F32.add (u32toF32 r.write_bytes) (u32toF32 r.read_bytes)) (F32.finite 1000))
      (F32.mul (F32.mul (F32.finite 1024) (F32.finite 1024)) (u32toF32 time))

/- ### SoC revision identification (get_system_revision) -/

/-- Outcome of `get_system_revision`: `Ok(u32)`, `Err(ProfilingError)`
with its message, or a panic from one of the `unwrap()` calls. -/
inductive RevResult where
  | ok (revision : Nat)
  | err (msg : String)
  | panicked
deriving DecidableEq

/-- The file contents `get_system_revision` can observe: the text behind
`/proc/cpuinfo` and the text behind the (literal) soc-id path; `none`
models a failed `File::open`. -/
structure SysEnv where
  cpuinfo : Option String
  soc_id : Option String

/-- ASCII whitespace accepted by the pattern's `\s` class (the Unicode
whitespace code points also matched by the regex crate do not occur in
the inputs of interest). -/
def isSpaceRe (c : Char) : Bool :=
  c = ' ' || c = '\t' || c = '\n' || c = '\x0b' || c = '\x0c' || c = '\r'

/-- ASCII hexadecimal digit, the `[a-fA-F0-9]` class. -/
def isHexDigitRe (c : Char) : Bool :=
  ('0' ≤ c && c ≤ '9') || ('a' ≤ c && c ≤ 'f') || ('A' ≤ c && c ≤ 'F')

/-- Value of one hexadecimal digit. -/
def hexDigitVal (c : Char) : Nat :=
  if '0' ≤ c && c ≤ '9' then c.toNat - '0'.toNat
  else if 'a' ≤ c && c ≤ 'f' then c.toNat - 'a'.toNat + 10
  else if 'A' ≤ c && c ≤ 'F' then c.toNat - 'A'.toNat + 10
  else 0

/-- Value of a hexadecimal digit string (most significant digit first),
as accumulated by `u32::from_str_radix(_, 16)`. -/
def hexVal (l : List Char) : Nat :=
  l.foldl (fun acc c => acc * 16 + hexDigitVal c) 0

/-- Try to match the pattern `Revision\s*:\s*([a-fA-F0-9]+)` at the start
of the character list, returning the capture group. -/
def matchRevisionAt (l : List Char) : Option (List Char) :=
  if l.take 8 = "Revision".toList then
    match (l.drop 8).dropWhile isSpaceRe with
    | ':' :: rest =>
      let hex := (rest.dropWhile isSpaceRe).takeWhile isHexDigitRe
      if hex = [] then none else some hex
    | _ => none
  else none

/-- Leftmost match of `Revision\s*:\s*([a-fA-F0-9]+)`, as found by
`Regex::captures`. -/
def findRevision : List Char → Option (List Char)
  | [] => none
  | c :: cs =>
    match matchRevisionAt (c :: cs) with
    | some hex => some hex
    | none => findRevision cs

/-- `str::starts_with` on the decoded text: the string begins with the
given prefix. -/
def strStartsWith (s p : String) : Bool :=
  s.toList.take p.toList.length == p.toList

/-- `get_system_revision` from src/main.rs over an abstract filesystem
environment.  A 2048-byte buffer read that returns 0 or 2048 bytes is an
error; a failed regex match or an over-`u32` hex value panics through
`unwrap()`; a zero revision falls back to the soc-id text and maps the
three known prefixes; every other path returns the source's error
strings — including the final `Err("Unknown soc id")` reached after
decoding a nonzero revision. -/
def get_system_revision (env : SysEnv) : RevResult :=
  match env.cpuinfo with
  | none => .err "Error opening /proc/cpuinfo"
  | some content =>
    let rsize := min content.utf8ByteSize 2048
    if rsize = 0 ∨ rsize = 2048 then
      .err "Error reading cpu info, no bytes read or buffer full"
    else
      match findRevision content.toList with
      | none => .panicked
      | some hex =>
        if 4294967296 ≤ hexVal hex then .panicked
        else
          let revision := hexVal hex
          if revision = 0 then
            match env.soc_id with
            | none => .err "Error opening /sys/devices/soc0/soc_id"
            | some soc =>
              let srsize := min soc.utf8ByteSize 2048
              if srsize = 0 ∨ srsize = 2048 then
                .err "Error reading soc id, no bytes read or buffer full"
              else if strStartsWith soc "i.MX6Q" then .ok 0x63000
              else if strStartsWith soc "i.MX6DL" then .ok 0x61000
              else if strStartsWith soc "i.MX6SL" then .ok 0x60000
              else .err "Unknown soc id2"
          else .err "Unknown soc id"

/- ### Facts about the binary32 model -/

theorem qfloor_le (q : ℚ) : (qfloor q : ℚ) ≤ q := by
  have hden : (0 : ℤ) < (q.den : ℤ) := by exact_mod_cast q.pos
  have h := Int.ediv_add_emod q.num (q.den : ℤ)
  have hmod : (0 : ℤ) ≤ q.num % (q.den : ℤ) := Int.emod_nonneg _ (by omega)
  have hz : q.num / (q.den : ℤ) * (q.den : ℤ) ≤ q.num := by nlinarith [h, hmod]
  rw [qfloor]
  calc ((q.num / (q.den : ℤ) : ℤ) : ℚ) ≤ (q.num : ℚ) / (q.den : ℚ) := by
        rw [le_div_iff₀ (by exact_mod_cast hden)]
        exact_mod_cast hz
    _ = q := Rat.num_div_den q

theorem lt_qfloor_add_one (q : ℚ) : q < (qfloor q : ℚ) + 1 := by
  have hden : (0 : ℤ) < (q.den : ℤ) := by exact_mod_cast q.pos
  have h := Int.ediv_add_emod q.num (q.den : ℤ)
  have hmod : q.num % (q.den : ℤ) < (q.den : ℤ) := Int.emod_lt_of_pos _ hden
  have hz : q.num < (q.num / (q.den : ℤ) + 1) * (q.den : ℤ) := by nlinarith [h, hmod]
  rw [qfloor]
  calc q = (q.num : ℚ) / (q.den : ℚ) := (Rat.num_div_den q).symm
    _ < ((q.num / (q.den : ℤ) : ℤ) : ℚ) + 1 := by
        rw [div_lt_iff₀ (by exact_mod_cast hden)]
        exact_mod_cast hz

theorem qfloor_le_rne (x : ℚ) : qfloor x ≤ rne x := by
  rw [rne]
  split
  · exact le_refl _
  · split
    · omega
    · split
      · exact le_refl _
      · omega

theorem rne_le_qfloor_add_one (x : ℚ) : rne x ≤ qfloor x + 1 := by
  rw [rne]
  split
  · omega
  · split
    · omega
    · split
      · omega
      · omega

theorem log2fuel_bounds (fuel n : Nat) (hfn : n ≤ fuel) (hn : 1 ≤ n) :
    2 ^ log2fuel fuel n ≤ n ∧ n < 2 ^ (log2fuel fuel n + 1) := by
  induction fuel generalizing n with
  | zero => omega
  | succ fuel ih =>
    rw [log2fuel]
    by_cases h2 : n < 2
    · simp only [if_pos h2]
      omega
    · simp only [if_neg h2]
      have hrec := ih (n / 2) (by omega) (by omega)
      have hlo := hrec.1
      have hhi := hrec.2
      constructor
      · calc 2 ^ (log2fuel fuel (n / 2) + 1) = 2 * 2 ^ log2fuel fuel (n / 2) := by ring
          _ ≤ 2 * (n / 2) := by omega
          _ ≤ n := by omega
      · calc n < 2 * (n / 2) + 2 := by omega
          _ ≤ 2 * 2 ^ (log2fuel fuel (n / 2) + 1) := by omega
          _ = 2 ^ (log2fuel fuel (n / 2) + 1 + 1) := by ring

theorem natLog2_bounds (n : Nat) (hn : 1 ≤ n) :
    2 ^ natLog2 n ≤ n ∧ n < 2 ^ (natLog2 n + 1) :=
  log2fuel_bounds n n (le_refl n) hn

set_option maxRecDepth 8000 in
theorem floorLog2Q_correct (q : ℚ) (h : (2 : ℚ) ^ (-100 : ℤ) ≤ q) :
    (2 : ℚ) ^ floorLog2Q q ≤ q ∧ q < (2 : ℚ) ^ (floorLog2Q q + 1) := by
  have h2 : (0 : ℚ) < 2 := by norm_num
  have h2' : (2 : ℚ) ≠ 0 := by norm_num
  have hq0 : 0 < q := lt_of_lt_of_le (zpow_pos h2 _) h
  have hpow : (0 : ℚ) < 2 ^ (200 : ℕ) := by positivity
  have hP1 : (1 : ℚ) ≤ q * 2 ^ (200 : ℕ) := by
    have hstep : (2 : ℚ) ^ (-100 : ℤ) * 2 ^ (200 : ℕ) ≤ q * 2 ^ (200 : ℕ) :=
      mul_le_mul_of_nonneg_right h (le_of_lt hpow)
    refine le_trans ?_ hstep
    rw [← zpow_natCast (2 : ℚ) 200, ← zpow_add₀ h2']
    norm_num
  have hFle : ((qfloor (q * 2 ^ (200 : ℕ))) : ℚ) ≤ q * 2 ^ (200 : ℕ) := qfloor_le _
  have hFlt : q * 2 ^ (200 : ℕ) < ((qfloor (q * 2 ^ (200 : ℕ))) : ℚ) + 1 :=
    lt_qfloor_add_one _
  have hF1 : 1 ≤ qfloor (q * 2 ^ (200 : ℕ)) := by
    by_contra hcon
    push_neg at hcon
    have : ((qfloor (q * 2 ^ (200 : ℕ))) : ℚ) + 1 ≤ 1 := by
      have : ((qfloor (q * 2 ^ (200 : ℕ))) : ℚ) ≤ 0 := by exact_mod_cast (by omega : qfloor (q * 2 ^ (200 : ℕ)) ≤ 0)
      linarith
    linarith
  have hNcast : (((qfloor (q * 2 ^ (200 : ℕ))).toNat : ℤ)) = qfloor (q * 2 ^ (200 : ℕ)) :=
    Int.toNat_of_nonneg (by omega)
  have hN1 : 1 ≤ (qfloor (q * 2 ^ (200 : ℕ))).toNat := by omega
  obtain ⟨hlo, hhi⟩ := natLog2_bounds _ hN1
  have hloQ : ((2 : ℚ) ^ (natLog2 (qfloor (q * 2 ^ (200 : ℕ))).toNat : ℕ)) ≤ q * 2 ^ (200 : ℕ) := by
    calc ((2 : ℚ) ^ (natLog2 (qfloor (q * 2 ^ (200 : ℕ))).toNat : ℕ))
        ≤ (((qfloor (q * 2 ^ (200 : ℕ))).toNat : ℚ)) := by exact_mod_cast hlo
      _ = ((qfloor (q * 2 ^ (200 : ℕ))) : ℚ) := by exact_mod_cast congrArg (fun z : ℤ => (z : ℚ)) hNcast
      _ ≤ q * 2 ^ (200 : ℕ) := hFle
  have hhiQ : q * 2 ^ (200 : ℕ) < ((2 : ℚ) ^ (natLog2 (qfloor (q * 2 ^ (200 : ℕ))).toNat + 1 : ℕ)) := by
    calc q * 2 ^ (200 : ℕ) < ((qfloor (q * 2 ^ (200 : ℕ))) : ℚ) + 1 := hFlt
      _ = (((qfloor (q * 2 ^ (200 : ℕ))).toNat : ℚ)) + 1 := by
          rw [show ((qfloor (q * 2 ^ (200 : ℕ))) : ℚ) = (((qfloor (q * 2 ^ (200 : ℕ))).toNat : ℕ) : ℚ) from by exact_mod_cast congrArg (fun z : ℤ => (z : ℚ)) hNcast.symm]
      _ ≤ ((2 : ℚ) ^ (natLog2 (qfloor (q * 2 ^ (200 : ℕ))).toNat + 1 : ℕ)) := by
          exact_mod_cast (by omega : (qfloor (q * 2 ^ (200 : ℕ))).toNat + 1 ≤ 2 ^ (natLog2 (qfloor (q * 2 ^ (200 : ℕ))).toNat + 1))
  rw [floorLog2Q]
  constructor
  · rw [sub_eq_add_neg, zpow_add₀ h2', zpow_natCast]
    rw [show ((2 : ℚ) ^ (-(200 : ℤ))) = ((2 : ℚ) ^ ((200 : ℕ) : ℤ))⁻¹ by rw [zpow_neg]; norm_num]
    rw [zpow_natCast]
    rw [mul_inv_le_iff₀ hpow]
    exact hloQ
  · rw [sub_add_eq_add_sub, sub_eq_add_neg, zpow_add₀ h2']
    rw [show ((2 : ℚ) ^ ((natLog2 (qfloor (q * 2 ^ (200 : ℕ))).toNat : ℤ) + 1)) = ((2 : ℚ) ^ (natLog2 (qfloor (q * 2 ^ (200 : ℕ))).toNat + 1 : ℕ)) from by rw [← zpow_natCast (2 : ℚ) (natLog2 (qfloor (q * 2 ^ (200 : ℕ))).toNat + 1)]; congr 1]
    rw [show ((2 : ℚ) ^ (-(200 : ℤ))) = ((2 : ℚ) ^ ((200 : ℕ) : ℤ))⁻¹ by rw [zpow_neg]; norm_num]
    rw [zpow_natCast]
    rw [lt_mul_inv_iff₀ hpow]
    exact hhiQ

theorem roundF32_finite_of_pos (q : ℚ) (h1 : 1 / 2 ≤ q) (h2 : q ≤ (2 : ℚ) ^ (40 : ℤ)) :
    ∃ r : ℚ, roundF32 q = .finite r ∧ q / 2 < r ∧ r ≤ 2 * q := by
  have h2q : (0 : ℚ) < 2 := by norm_num
  have h2ne : (2 : ℚ) ≠ 0 := by norm_num
  have hone : (1 : ℚ) < 2 := by norm_num
  have hq0 : 0 < q := by linarith
  have hqne : q ≠ 0 := ne_of_gt hq0
  have habs : |q| = q := abs_of_pos hq0
  have hhalf : (2 : ℚ) ^ (-1 : ℤ) = 1 / 2 := by
    rw [zpow_neg_one]
    norm_num
  have hcor := floorLog2Q_correct q (by rw [← hhalf] at h1; exact le_trans (zpow_le_zpow_right₀ (by norm_num) (by norm_num)) h1)
  obtain ⟨hele, helt⟩ := hcor
  have he40 : floorLog2Q q ≤ 40 := by
    have := le_trans hele h2
    exact (zpow_le_zpow_iff_right₀ hone).mp this
  have hem1 : -1 ≤ floorLog2Q q := by
    have hlt : (2 : ℚ) ^ (-1 : ℤ) < 2 ^ (floorLog2Q q + 1) := by
      rw [hhalf]
      exact lt_of_le_of_lt h1 helt
    have := (zpow_lt_zpow_iff_right₀ hone).mp hlt
    omega
  have hscale : f32scale (floorLog2Q q) = floorLog2Q q - 23 := by
    rw [f32scale, if_neg (by omega)]
  have hxlo : (2 : ℚ) ^ (23 : ℤ) ≤ q * 2 ^ (-(floorLog2Q q - 23)) := by
    have := mul_le_mul_of_nonneg_right hele (le_of_lt (zpow_pos h2q (-(floorLog2Q q - 23))))
    calc (2 : ℚ) ^ (23 : ℤ) = 2 ^ (floorLog2Q q + -(floorLog2Q q - 23)) := by ring_nf
      _ = 2 ^ floorLog2Q q * 2 ^ (-(floorLog2Q q - 23)) := zpow_add₀ h2ne _ _
      _ ≤ q * 2 ^ (-(floorLog2Q q - 23)) := this
  have hxhi : q * 2 ^ (-(floorLog2Q q - 23)) < (2 : ℚ) ^ (24 : ℤ) := by
    have := mul_lt_mul_of_pos_right helt (zpow_pos h2q (-(floorLog2Q q - 23)))
    calc q * 2 ^ (-(floorLog2Q q - 23)) < 2 ^ (floorLog2Q q + 1) * 2 ^ (-(floorLog2Q q - 23)) := this
      _ = 2 ^ (floorLog2Q q + 1 + -(floorLog2Q q - 23)) := (zpow_add₀ h2ne _ _).symm
      _ = 2 ^ (24 : ℤ) := by ring_nf
  have hflo : (2 ^ 23 : ℤ) ≤ qfloor (q * 2 ^ (-(floorLog2Q q - 23))) := by
    have hlt : ((2 ^ 23 : ℤ) : ℚ) < (qfloor (q * 2 ^ (-(floorLog2Q q - 23))) : ℚ) + 1 := by
      calc ((2 ^ 23 : ℤ) : ℚ) = (2 : ℚ) ^ (23 : ℤ) := by
            push_cast
            norm_num
        _ ≤ q * 2 ^ (-(floorLog2Q q - 23)) := hxlo
        _ < _ := lt_qfloor_add_one _
    have : (2 ^ 23 : ℤ) < qfloor (q * 2 ^ (-(floorLog2Q q - 23))) + 1 := by exact_mod_cast hlt
    omega
  have hfhi : qfloor (q * 2 ^ (-(floorLog2Q q - 23))) < (2 ^ 24 : ℤ) := by
    have hlt : (qfloor (q * 2 ^ (-(floorLog2Q q - 23))) : ℚ) < ((2 ^ 24 : ℤ) : ℚ) := by
      calc (qfloor (q * 2 ^ (-(floorLog2Q q - 23))) : ℚ) ≤ q * 2 ^ (-(floorLog2Q q - 23)) := qfloor_le _
        _ < (2 : ℚ) ^ (24 : ℤ) := hxhi
        _ = ((2 ^ 24 : ℤ) : ℚ) := by
            push_cast
            norm_num
    exact_mod_cast hlt
  have hmlo : (2 ^ 23 : ℤ) ≤ rne (q * 2 ^ (-(floorLog2Q q - 23))) :=
    le_trans hflo (qfloor_le_rne _)
  have hmhi : rne (q * 2 ^ (-(floorLog2Q q - 23))) ≤ (2 ^ 24 : ℤ) := by
    have := rne_le_qfloor_add_one (q * 2 ^ (-(floorLog2Q q - 23)))
    omega
  have hval : f32val q = (rne (q * 2 ^ (-(floorLog2Q q - 23))) : ℚ) * 2 ^ (floorLog2Q q - 23 : ℤ) := by
    rw [f32val, habs, hscale]
  have hrlo : (2 : ℚ) ^ floorLog2Q q ≤ f32val q := by
    rw [hval]
    have hcast : ((2 : ℚ) ^ (23 : ℤ)) ≤ (rne (q * 2 ^ (-(floorLog2Q q - 23))) : ℚ) := by
      calc ((2 : ℚ) ^ (23 : ℤ)) = ((2 ^ 23 : ℤ) : ℚ) := by
            push_cast
            norm_num
        _ ≤ _ := by exact_mod_cast hmlo
    calc (2 : ℚ) ^ floorLog2Q q = 2 ^ (23 + (floorLog2Q q - 23)) := by ring_nf
      _ = 2 ^ (23 : ℤ) * 2 ^ (floorLog2Q q - 23) := zpow_add₀ h2ne _ _
      _ ≤ (rne (q * 2 ^ (-(floorLog2Q q - 23))) : ℚ) * 2 ^ (floorLog2Q q - 23) :=
          mul_le_mul_of_nonneg_right hcast (le_of_lt (zpow_pos h2q _))
  have hrhi : f32val q ≤ (2 : ℚ) ^ (floorLog2Q q + 1) := by
    rw [hval]
    have hcast : (rne (q * 2 ^ (-(floorLog2Q q - 23))) : ℚ) ≤ ((2 : ℚ) ^ (24 : ℤ)) := by
      calc (rne (q * 2 ^ (-(floorLog2Q q - 23))) : ℚ) ≤ ((2 ^ 24 : ℤ) : ℚ) := by exact_mod_cast hmhi
        _ = (2 : ℚ) ^ (24 : ℤ) := by
            push_cast
            norm_num
    calc (rne (q * 2 ^ (-(floorLog2Q q - 23))) : ℚ) * 2 ^ (floorLog2Q q - 23)
        ≤ (2 : ℚ) ^ (24 : ℤ) * 2 ^ (floorLog2Q q - 23) :=
          mul_le_mul_of_nonneg_right hcast (le_of_lt (zpow_pos h2q _))
      _ = 2 ^ (24 + (floorLog2Q q - 23)) := (zpow_add₀ h2ne _ _).symm
      _ = 2 ^ (floorLog2Q q + 1) := by ring_nf
  have hnotbig : ¬ maxF32 < f32val q := by
    push_neg
    calc f32val q ≤ (2 : ℚ) ^ (floorLog2Q q + 1) := hrhi
      _ ≤ (2 : ℚ) ^ (41 : ℤ) := zpow_le_zpow_right₀ (by norm_num) (by omega)
      _ ≤ maxF32 := by
          rw [maxF32]
          norm_num
  refine ⟨f32val q, ?_, ?_, ?_⟩
  · rw [roundF32, if_neg hqne, if_neg hnotbig]
  · have : q / 2 < (2 : ℚ) ^ floorLog2Q q := by
      rw [div_lt_iff₀ h2q]
      calc q < 2 ^ (floorLog2Q q + 1) := helt
        _ = 2 ^ floorLog2Q q * 2 := by
            rw [zpow_add₀ h2ne]
            norm_num
    exact lt_of_lt_of_le this hrlo
  · have : (2 : ℚ) ^ (floorLog2Q q + 1) ≤ 2 * q := by
      rw [zpow_add₀ h2ne]
      have : (2 : ℚ) ^ floorLog2Q q * 2 ≤ q * 2 := mul_le_mul_of_nonneg_right hele (by norm_num)
      calc (2 : ℚ) ^ floorLog2Q q * 2 ^ (1 : ℤ) = 2 ^ floorLog2Q q * 2 := by norm_num
        _ ≤ q * 2 := this
        _ = 2 * q := mul_comm _ _
    exact le_trans hrhi this

theorem u32toF32_zero : u32toF32 0 = .finite 0 := by
  rw [u32toF32, roundF32]
  norm_num

theorem u32toF32_finite_pos (n : ℕ) (h1 : 1 ≤ n) (h2 : n ≤ 2 ^ 33) :
    ∃ r : ℚ, u32toF32 n = .finite r ∧ 0 < r ∧ r ≤ (2 : ℚ) ^ (34 : ℤ) := by
  have hq1 : (1 : ℚ) / 2 ≤ (n : ℚ) := by
    have : (1 : ℚ) ≤ (n : ℚ) := by exact_mod_cast h1
    linarith
  have hq2 : (n : ℚ) ≤ (2 : ℚ) ^ (40 : ℤ) := by
    calc (n : ℚ) ≤ ((2 ^ 33 : ℕ) : ℚ) := by exact_mod_cast h2
      _ ≤ (2 : ℚ) ^ (40 : ℤ) := by
          push_cast
          norm_num
  obtain ⟨r, hr, hlo, hhi⟩ := roundF32_finite_of_pos (n : ℚ) hq1 hq2
  refine ⟨r, hr, by linarith, ?_⟩
  calc r ≤ 2 * (n : ℚ) := hhi
    _ ≤ 2 * ((2 ^ 33 : ℕ) : ℚ) := by
        have : (n : ℚ) ≤ ((2 ^ 33 : ℕ) : ℚ) := by exact_mod_cast h2
        linarith
    _ ≤ (2 : ℚ) ^ (34 : ℤ) := by
        push_cast
        norm_num

theorem roundF32_finite_pos_of_bounds (s : ℚ) (h1 : 1 / 2 ≤ s) (h2 : s ≤ (2 : ℚ) ^ (40 : ℤ)) :
    ∃ r : ℚ, roundF32 s = .finite r ∧ 0 < r := by
  obtain ⟨r, hr, hlo, _⟩ := roundF32_finite_of_pos s h1 h2
  exact ⟨r, hr, by linarith⟩

theorem addF32_u32_pos (a b : ℕ) (ha : a ≤ 2 ^ 33) (hb : b ≤ 2 ^ 33)
    (hab : a ≠ 0 ∨ b ≠ 0) :
    ∃ r : ℚ, F32.add (u32toF32 a) (u32toF32 b) = .finite r ∧ 0 < r := by
  have hbound : ((2 : ℚ) ^ (34 : ℤ)) + ((2 : ℚ) ^ (34 : ℤ)) ≤ (2 : ℚ) ^ (40 : ℤ) := by
    rw [show ((40 : ℤ)) = ((40 : ℕ) : ℤ) by norm_num, zpow_natCast,
      show ((34 : ℤ)) = ((34 : ℕ) : ℤ) by norm_num, zpow_natCast]
    norm_num
  by_cases haz : a = 0
  · have hb1 : 1 ≤ b := by omega
    obtain ⟨rb, hrb, hrb0, hrbhi⟩ := u32toF32_finite_pos b hb1 hb
    rw [haz, u32toF32_zero, hrb]
    rw [F32.add]
    have h1 : (1 : ℚ) / 2 ≤ 0 + rb := by
      have : (1 : ℚ) ≤ (b : ℚ) := by exact_mod_cast hb1
      have hhalf : (1 : ℚ) / 2 ≤ (b : ℚ) / 2 := by linarith
      -- rb exceeds b / 2 by the rounding bound
      obtain ⟨r', hr', hlo', _⟩ := roundF32_finite_of_pos (b : ℚ) (by linarith) (by
        calc (b : ℚ) ≤ ((2 ^ 33 : ℕ) : ℚ) := by exact_mod_cast hb
          _ ≤ (2 : ℚ) ^ (40 : ℤ) := by push_cast; norm_num)
      rw [u32toF32] at hrb
      rw [hrb] at hr'
      cases hr'
      linarith
    obtain ⟨r, hr, hr0⟩ := roundF32_finite_pos_of_bounds (0 + rb) h1 (by linarith)
    exact ⟨r, hr, hr0⟩
  · have ha1 : 1 ≤ a := by omega
    obtain ⟨ra, hra, hra0, hrahi⟩ := u32toF32_finite_pos a ha1 ha
    have hhalfa : (1 : ℚ) / 2 ≤ ra := by
      obtain ⟨r', hr', hlo', _⟩ := roundF32_finite_of_pos (a : ℚ) (by
          have : (1 : ℚ) ≤ (a : ℚ) := by exact_mod_cast ha1
          linarith) (by
        calc (a : ℚ) ≤ ((2 ^ 33 : ℕ) : ℚ) := by exact_mod_cast ha
          _ ≤ (2 : ℚ) ^ (40 : ℤ) := by push_cast; norm_num)
      rw [u32toF32] at hra
      rw [hra] at hr'
      cases hr'
      have : (1 : ℚ) ≤ (a : ℚ) := by exact_mod_cast ha1
      linarith
    by_cases hbz : b = 0
    · rw [hbz, u32toF32_zero, hra]
      rw [F32.add]
      obtain ⟨r, hr, hr0⟩ := roundF32_finite_pos_of_bounds (ra + 0) (by linarith) (by linarith)
      exact ⟨r, hr, hr0⟩
    · have hb1 : 1 ≤ b := by omega
      obtain ⟨rb, hrb, hrb0, hrbhi⟩ := u32toF32_finite_pos b hb1 hb
      rw [hra, hrb]
      rw [F32.add]
      obtain ⟨r, hr, hr0⟩ := roundF32_finite_pos_of_bounds (ra + rb) (by linarith) (by linarith)
      exact ⟨r, hr, hr0⟩

/- ### Claim theorems -/

set_option maxRecDepth 100000 in
/-- C1 (counterexample): the claim that a zero denominator leaves the
corresponding derived metric at its zero default is false on the code:
for the snapshot total=1000, busy=0, reads=10, writes=5, read_bytes=160,
write_bytes=80 the `f32` division 240/0 yields infinity and the
saturating cast stores `u32::MAX`, so utilization is 4294967295, not 0. -/
theorem C1_counterexample :
    (get_mmdc_profiling_results
      { MMDC.zero with
        madpsr0 := 1000
        madpsr1 := 0
        madpsr2 := 10
        madpsr3 := 5
        madpsr4 := 160
        madpsr5 := 80 }).utilization = 4294967295 ∧
    (4294967295 : Nat) ≠ 0 := by
  constructor
  · with_unfolding_all decide
  · decide

/-- C1 (amended): deriving a `ProfileResult` never traps — every division
is a total `f32` division — but the zero-default policy only covers the
byte-counter guard.  For a snapshot with a nonzero byte counter (32-bit
values), a zero `busy_cycles` makes utilization saturate to 4294967295, a
zero `total_cycles` with nonzero `busy_cycles` makes data_load saturate
to 4294967295 (while `busy_cycles = total_cycles = 0` gives NaN, cast to
0), and `read_accesses + write_accesses = 0` makes access_utilization
saturate to 4294967295. -/
theorem C1_zero_denominator_saturates (m : MMDC)
    (hb4 : m.madpsr4 < 2 ^ 32) (hb5 : m.madpsr5 < 2 ^ 32)
    (hbytes : m.madpsr4 ≠ 0 ∨ m.madpsr5 ≠ 0) :
    (m.madpsr1 = 0 → (get_mmdc_profiling_results m).utilization = 4294967295) ∧
    (m.madpsr0 = 0 → m.madpsr1 ≠ 0 → m.madpsr1 < 2 ^ 32 →
      (get_mmdc_profiling_results m).data_load = 4294967295) ∧
    (m.madpsr0 = 0 → m.madpsr1 = 0 → (get_mmdc_profiling_results m).data_load = 0) ∧
    (m.madpsr2 = 0 → m.madpsr3 = 0 →
      (get_mmdc_profiling_results m).access_utilization = 4294967295) := by
  obtain ⟨rn, hrn, hrn0⟩ := addF32_u32_pos m.madpsr4 m.madpsr5 (by omega) (by omega) hbytes
  refine ⟨?_, ?_, ?_, ?_⟩
  · intro hb
    simp only [get_mmdc_profiling_results, if_pos hbytes, hb, u32toF32_zero, hrn]
    have hm0 : F32.mul (F32.finite 0) (F32.finite 16) = .finite 0 := by
      simp only [F32.mul, zero_mul, roundF32]
      norm_num
    rw [hm0]
    simp only [F32.div, if_pos rfl, if_neg (ne_of_gt hrn0), F32.mul]
    norm_num [f32toU32]
  · intro h0 h1 h1b
    simp only [get_mmdc_profiling_results, if_pos hbytes, h0, u32toF32_zero]
    obtain ⟨rb, hrb, hrb0, _⟩ := u32toF32_finite_pos m.madpsr1 (by omega) (by omega)
    rw [hrb]
    simp only [F32.div, if_pos rfl, if_neg (ne_of_gt hrb0), F32.mul]
    norm_num [f32toU32]
  · intro h0 h1
    simp only [get_mmdc_profiling_results, if_pos hbytes, h0, h1, u32toF32_zero]
    simp only [F32.div, if_pos rfl, F32.mul]
    norm_num [f32toU32]
  · intro h2 h3
    simp only [get_mmdc_profiling_results, if_pos hbytes, h2, h3, u32toF32_zero, hrn]
    have ha0 : F32.add (F32.finite 0) (F32.finite 0) = .finite 0 := by
      simp only [F32.add, add_zero, roundF32]
      norm_num
    rw [ha0]
    simp only [F32.div, if_pos rfl, if_neg (ne_of_gt hrn0)]
    norm_num [f32toU32]

/-- C1 (witness): the amended theorem applied to a concrete snapshot with
`busy_cycles = 0` and nonzero byte counters. -/
theorem C1_witness :
    (get_mmdc_profiling_results
      { MMDC.zero with
        madpsr0 := 500
        madpsr1 := 0
        madpsr2 := 3
        madpsr3 := 2
        madpsr4 := 96
        madpsr5 := 32 }).utilization = 4294967295 :=
  (C1_zero_denominator_saturates
    { MMDC.zero with
      madpsr0 := 500
      madpsr1 := 0
      madpsr2 := 3
      madpsr3 := 2
      madpsr4 := 96
      madpsr5 := 32 }
    (by norm_num) (by norm_num) (Or.inl (by norm_num))).1 rfl

set_option maxRecDepth 100000 in
/-- C2: `print_profiling_results` computes its `avg_read` rate from
`write_bytes`, not `read_bytes`: for a result with read_bytes = 2097152,
write_bytes = 0 and 1000 elapsed ms the printed read throughput is 0,
while the claimed formula `read_bytes * 1000 / (1024*1024*elapsed_ms)`
gives 2 MB/s. -/
theorem C2_avg_read_uses_write_bytes :
    (print_profiling_results_rates
      { MMDCProfileResult.zeroDefault with read_bytes := 2097152 } 1000).avg_read =
      .finite 0 ∧
    (2097152 : ℚ) * 1000 / (1024 * 1024 * 1000) = 2 := by
  refine ⟨?_, by norm_num⟩
  with_unfolding_all decide

set_option maxRecDepth 100000 in
/-- C3 (counterexample): the exact integer-floor formulas do not hold for
all 32-bit counter values: for read_bytes = 2^24 + 1 = 16777217 (one read
access, write counters zero, busy = total = 1) the `u32 -> f32`
conversion already rounds to 16777216, so access_utilization is
16777216 while floor((read_bytes + write_bytes) /
(read_accesses + write_accesses)) = 16777217. -/
theorem C3_counterexample :
    (get_mmdc_profiling_results
      { MMDC.zero with
        madpsr0 := 1
        madpsr1 := 1
        madpsr2 := 1
        madpsr3 := 0
        madpsr4 := 16777217
        madpsr5 := 0 }).access_utilization = 16777216 ∧
    (16777217 + 0) / (1 + 0) = 16777217 ∧ (16777216 : Nat) ≠ 16777217 := by
  refine ⟨?_, by norm_num, by norm_num⟩
  with_unfolding_all decide

/-- C3 (amended): when a byte counter is nonzero, the three ratio metrics
equal the claimed formulas evaluated in IEEE-754 single precision —
each operand converted with round-to-nearest-even, each operation rounded
— and finally truncated toward zero by the saturating `as u32` cast; the
exact integer-floor identities hold only when that evaluation is exact,
not for all 32-bit counter values. -/
theorem C3_metrics_are_f32_formulas (m : MMDC)
    (hbytes : m.madpsr4 ≠ 0 ∨ m.madpsr5 ≠ 0) :
    (get_mmdc_profiling_results m).utilization =
      f32toU32 (F32.mul (F32.div (F32.add (u32toF32 m.madpsr4) (u32toF32 m.madpsr5))
        (F32.mul (u32toF32 m.madpsr1) (F32.finite 16))) (F32.finite 100)) ∧
    (get_mmdc_profiling_results m).data_load =
      f32toU32 (F32.mul (F32.div (u32toF32 m.madpsr1) (u32toF32 m.madpsr0))
        (F32.finite 100)) ∧
    (get_mmdc_profiling_results m).access_utilization =
      f32toU32 (F32.div (F32.add (u32toF32 m.madpsr4) (u32toF32 m.madpsr5))
        (F32.add (u32toF32 m.madpsr2) (u32toF32 m.madpsr3))) := by
  refine ⟨?_, ?_, ?_⟩ <;> simp only [get_mmdc_profiling_results, if_pos hbytes]

/-- C3 (witness): the amended theorem applied to the spec's end-to-end
example snapshot. -/
theorem C3_witness :
    (get_mmdc_profiling_results
      { MMDC.zero with
        madpsr0 := 1000
        madpsr1 := 400
        madpsr2 := 10
        madpsr3 := 5
        madpsr4 := 160
        madpsr5 := 80 }).utilization =
      f32toU32 (F32.mul (F32.div (F32.add (u32toF32 160) (u32toF32 80))
        (F32.mul (u32toF32 400) (F32.finite 16))) (F32.finite 100)) :=
  (C3_metrics_are_f32_formulas
    { MMDC.zero with
      madpsr0 := 1000
      madpsr1 := 400
      madpsr2 := 10
      madpsr3 := 5
      madpsr4 := 160
      madpsr5 := 80 }
    (Or.inl (by norm_num))).1

/-- C4: `get_system_revision` returns `Err("Unknown soc id")` even when
the first source decodes to a nonzero revision (here 0x63012), instead of
succeeding as the claim states; the zero-revision fallback path does map
the `i.MX6Q` prefix to 0x63000 as claimed. -/
theorem C4_nonzero_revision_still_errors :
    get_system_revision ⟨some "Revision\t: 63012\n", some "i.MX6Q\n"⟩ =
      .err "Unknown soc id" ∧
    get_system_revision ⟨some "Revision\t: 0\n", some "i.MX6Q\n"⟩ = .ok 0x63000 := by
  constructor
  · decide
  · decide

set_option maxRecDepth 100000 in
/-- C5: the spec's end-to-end example: deriving from the snapshot
total=1000, busy=400, reads=10, writes=5, read_bytes=160, write_bytes=80
gives utilization 3, data_load 40, access_utilization 16 and burst
sizes 16/16. -/
theorem C5_end_to_end_example :
    (get_mmdc_profiling_results
      { MMDC.zero with
        madpsr0 := 1000
        madpsr1 := 400
        madpsr2 := 10
        madpsr3 := 5
        madpsr4 := 160
        madpsr5 := 80 }) =
    { MMDCProfileResult.zeroDefault with
      total_cycles := 1000
      busy_cycles := 400
      read_accesses := 10
      write_accesses := 5
      read_bytes := 160
      write_bytes := 80
      utilization := 3
      data_load := 40
      access_utilization := 16
      avg_read_burstsize := 16
      avg_write_burstsize := 16 } := by
  with_unfolding_all decide

/-- C6: when both byte counters are zero the guard branch is not taken,
so utilization, data_load and access_utilization stay 0 whatever the
other registers hold; and the all-zero snapshot derives the all-zero
result. -/
theorem C6_zero_bytes_zero_metrics (m : MMDC)
    (h4 : m.madpsr4 = 0) (h5 : m.madpsr5 = 0) :
    ((get_mmdc_profiling_results m).utilization = 0 ∧
     (get_mmdc_profiling_results m).data_load = 0 ∧
     (get_mmdc_profiling_results m).access_utilization = 0) ∧
    get_mmdc_profiling_results MMDC.zero = MMDCProfileResult.zeroDefault := by
  constructor
  · simp only [get_mmdc_profiling_results, h4, h5]
    norm_num
  · rfl

/-- C6 (witness): the theorem applied to a snapshot with busy cycles and
access counts but no bytes. -/
theorem C6_witness :
    (((get_mmdc_profiling_results
      { MMDC.zero with
        madpsr0 := 7
        madpsr1 := 3
        madpsr2 := 2
        madpsr3 := 1 }).utilization = 0 ∧
     (get_mmdc_profiling_results
      { MMDC.zero with
        madpsr0 := 7
        madpsr1 := 3
        madpsr2 := 2
        madpsr3 := 1 }).data_load = 0 ∧
     (get_mmdc_profiling_results
      { MMDC.zero with
        madpsr0 := 7
        madpsr1 := 3
        madpsr2 := 2
        madpsr3 := 1 }).access_utilization = 0) ∧
    get_mmdc_profiling_results MMDC.zero = MMDCProfileResult.zeroDefault) :=
  C6_zero_bytes_zero_metrics
    { MMDC.zero with
      madpsr0 := 7
      madpsr1 := 3
      madpsr2 := 2
      madpsr3 := 1 } rfl rfl

/-- C7: avg_write_burstsize is the exact `u32` quotient
write_bytes / write_accesses when write_accesses > 0 and 0 when
write_accesses = 0; symmetrically for avg_read_burstsize. -/
theorem C7_burst_sizes (m : MMDC) :
    (0 < m.madpsr3 →
      (get_mmdc_profiling_results m).avg_write_burstsize = m.madpsr5 / m.madpsr3) ∧
    (m.madpsr3 = 0 → (get_mmdc_profiling_results m).avg_write_burstsize = 0) ∧
    (0 < m.madpsr2 →
      (get_mmdc_profiling_results m).avg_read_burstsize = m.madpsr4 / m.madpsr2) ∧
    (m.madpsr2 = 0 → (get_mmdc_profiling_results m).avg_read_burstsize = 0) := by
  refine ⟨?_, ?_, ?_, ?_⟩
  · intro h
    simp only [get_mmdc_profiling_results, if_pos h]
  · intro h
    simp only [get_mmdc_profiling_results, h]
    norm_num
  · intro h
    simp only [get_mmdc_profiling_results, if_pos h]
  · intro h
    simp only [get_mmdc_profiling_results, h]
    norm_num

/-- C7 (witness): write_bytes = 9 over 4 write accesses truncates to 2;
no read accesses gives read burst size 0. -/
theorem C7_witness :
    (get_mmdc_profiling_results
      { MMDC.zero with
        madpsr3 := 4
        madpsr4 := 7
        madpsr5 := 9 }).avg_write_burstsize = 2 ∧
    (get_mmdc_profiling_results
      { MMDC.zero with
        madpsr3 := 4
        madpsr4 := 7
        madpsr5 := 9 }).avg_read_burstsize = 0 :=
  ⟨(C7_burst_sizes
      { MMDC.zero with
        madpsr3 := 4
        madpsr4 := 7
        madpsr5 := 9 }).1 (by norm_num),
   (C7_burst_sizes
      { MMDC.zero with
        madpsr3 := 4
        madpsr4 := 7
        madpsr5 := 9 }).2.2.2 rfl⟩

/-- C8 (counterexample): one measuring cycle does not perform exactly the
six-step write sequence the claim states: `start_mmdc_profiling`
re-issues the 0xA clear before enabling, so two clear writes precede the
stop write. -/
theorem C8_counterexample :
    (do_measuring_cylce MMDC.zero 1000).2.2 ≠
      [.ctrlWrite 0xA, .ctrlWrite 0x1, .sleep 1000, .ctrlOr 0x4,
       .counterRead, .ctrlWrite 0x0] ∧
    ((do_measuring_cylce MMDC.zero 1000).2.2.takeWhile
      (fun e => e != MMDCEvent.ctrlWrite 0x0)).count (.ctrlWrite 0xA) = 2 := by
  constructor
  · decide
  · decide

/-- C8 (amended): one measuring cycle performs exactly the write sequence
clear (0xA), clear again (0xA, issued by start), enable (0x1), sleep of
the configured duration, freeze (OR in 0x4), one counter read, stop
(0x0); it performs exactly one freeze-then-read, never reads the
counters before the freeze write, and issues the 0xA clear twice (not
once) before the stop write. -/
theorem C8_cycle_trace (m : MMDC) (t : Nat) :
    (do_measuring_cylce m t).2.2 =
      [.ctrlWrite 0xA, .ctrlWrite 0xA, .ctrlWrite 0x1, .sleep t, .ctrlOr 0x4,
       .counterRead, .ctrlWrite 0x0] ∧
    (do_measuring_cylce m t).2.2.count .counterRead = 1 ∧
    ((do_measuring_cylce m t).2.2.takeWhile
      (fun e => e != MMDCEvent.ctrlOr 0x4)).count .counterRead = 0 ∧
    ((do_measuring_cylce m t).2.2.takeWhile
      (fun e => e != MMDCEvent.ctrlWrite 0x0)).count (.ctrlWrite 0xA) = 2 := by
  exact ⟨rfl, rfl, rfl, rfl⟩

/-- C9: applying the options always overwrites the `madpcr1` field — with
the supplied override value, or with 0 when the option is absent — and
leaves every other register field unchanged. -/
theorem C9_apply_options_frame (m : MMDC) (o : Option Nat) :
    (apply_options m o).madpcr1 = o.getD 0 ∧
    (apply_options m o).mdctl = m.mdctl ∧
    (apply_options m o).mdpdc = m.mdpdc ∧
    (apply_options m o).mdotc = m.mdotc ∧
    (apply_options m o).mdcfg0 = m.mdcfg0 ∧
    (apply_options m o).mdcfg1 = m.mdcfg1 ∧
    (apply_options m o).mdcfg2 = m.mdcfg2 ∧
    (apply_options m o).mdmisc = m.mdmisc ∧
    (apply_options m o).mdscr = m.mdscr ∧
    (apply_options m o).mdref = m.mdref ∧
    (apply_options m o).mdwcc = m.mdwcc ∧
    (apply_options m o).mdrcc = m.mdrcc ∧
    (apply_options m o).mdrwd = m.mdrwd ∧
    (apply_options m o).mdor = m.mdor ∧
    (apply_options m o).mdmrr = m.mdmrr ∧
    (apply_options m o).mdcfg3lp = m.mdcfg3lp ∧
    (apply_options m o).mdmr4 = m.mdmr4 ∧
    (apply_options m o).mdasp = m.mdasp ∧
    (apply_options m o).adopt_base_offset_fill = m.adopt_base_offset_fill ∧
    (apply_options m o).maarcr = m.maarcr ∧
    (apply_options m o).mapsr = m.mapsr ∧
    (apply_options m o).maexidr0 = m.maexidr0 ∧
    (apply_options m o).maexidr1 = m.maexidr1 ∧
    (apply_options m o).madpcr0 = m.madpcr0 ∧
    (apply_options m o).madpsr0 = m.madpsr0 ∧
    (apply_options m o).madpsr1 = m.madpsr1 ∧
    (apply_options m o).madpsr2 = m.madpsr2 ∧
    (apply_options m o).madpsr3 = m.madpsr3 ∧
    (apply_options m o).madpsr4 = m.madpsr4 ∧
    (apply_options m o).madpsr5 = m.madpsr5 ∧
    (apply_options m o).masbs0 = m.masbs0 ∧
    (apply_options m o).masbs1 = m.masbs1 ∧
    (apply_options m o).ma_reserved1 = m.ma_reserved1 ∧
    (apply_options m o).ma_reserved2 = m.ma_reserved2 ∧
    (apply_options m o).magenp = m.magenp ∧
    (apply_options m o).phy_base_offset_fill = m.phy_base_offset_fill ∧
    (apply_options m o).mpzqhwctrl = m.mpzqhwctrl ∧
    (apply_options m o).mpzqswctrl = m.mpzqswctrl ∧
    (apply_options m o).mpwlgcr = m.mpwlgcr ∧
    (apply_options m o).mpwldectrl0 = m.mpwldectrl0 ∧
    (apply_options m o).mpwldectrl1 = m.mpwldectrl1 ∧
    (apply_options m o).mpwldlst = m.mpwldlst ∧
    (apply_options m o).mpodtctrl = m.mpodtctrl ∧
    (apply_options m o).mpredqby0dl = m.mpredqby0dl ∧
    (apply_options m o).mpredqby1dl = m.mpredqby1dl ∧
    (apply_options m o).mpredqby2dl = m.mpredqby2dl ∧
    (apply_options m o).mpredqby3dl = m.mpredqby3dl ∧
    (apply_options m o).mpwrdqby0dl = m.mpwrdqby0dl ∧
    (apply_options m o).mpwrdqby1dl = m.mpwrdqby1dl ∧
    (apply_options m o).mpwrdqby2dl = m.mpwrdqby2dl ∧
    (apply_options m o).mpwrdqby3dl = m.mpwrdqby3dl ∧
    (apply_options m o).mpdgctrl0 = m.mpdgctrl0 ∧
    (apply_options m o).mpdgctrl1 = m.mpdgctrl1 ∧
    (apply_options m o).mpdgdlst = m.mpdgdlst ∧
    (apply_options m o).mprddlctl = m.mprddlctl ∧
    (apply_options m o).mprddlst = m.mprddlst ∧
    (apply_options m o).mpwrdlctl = m.mpwrdlctl ∧
    (apply_options m o).mpwrdlst = m.mpwrdlst ∧
    (apply_options m o).mpsdctrl = m.mpsdctrl ∧
    (apply_options m o).mpzqlp2ctl = m.mpzqlp2ctl ∧
    (apply_options m o).mprddlhwctl = m.mprddlhwctl ∧
    (apply_options m o).mpwrdlhwctl = m.mpwrdlhwctl ∧
    (apply_options m o).mprddlhwst0 = m.mprddlhwst0 ∧
    (apply_options m o).mprddlhwst1 = m.mprddlhwst1 ∧
    (apply_options m o).mpwrdlhwst0 = m.mpwrdlhwst0 ∧
    (apply_options m o).mpwrdlhwst1 = m.mpwrdlhwst1 ∧
    (apply_options m o).mpwlhwerr = m.mpwlhwerr ∧
    (apply_options m o).mpdghwst0 = m.mpdghwst0 ∧
    (apply_options m o).mpdghwst1 = m.mpdghwst1 ∧
    (apply_options m o).mpdghwst2 = m.mpdghwst2 ∧
    (apply_options m o).mpdghwst3 = m.mpdghwst3 ∧
    (apply_options m o).mppdcmpr1 = m.mppdcmpr1 ∧
    (apply_options m o).mppdcmpr2 = m.mppdcmpr2 ∧
    (apply_options m o).mpswdar = m.mpswdar ∧
    (apply_options m o).mpswdrdr0 = m.mpswdrdr0 ∧
    (apply_options m o).mpswdrdr1 = m.mpswdrdr1 ∧
    (apply_options m o).mpswdrdr2 = m.mpswdrdr2 ∧
    (apply_options m o).mpswdrdr3 = m.mpswdrdr3 ∧
    (apply_options m o).mpswdrdr4 = m.mpswdrdr4 ∧
    (apply_options m o).mpswdrdr5 = m.mpswdrdr5 ∧
    (apply_options m o).mpswdrdr6 = m.mpswdrdr6 ∧
    (apply_options m o).mpswdrdr7 = m.mpswdrdr7 ∧
    (apply_options m o).mpmur = m.mpmur ∧
    (apply_options m o).mpwrcadl = m.mpwrcadl ∧
    (apply_options m o).mpdccr = m.mpdccr ∧
    (apply_options m o).mpbc = m.mpbc := by
  cases o <;> exact ⟨rfl, rfl, rfl, rfl, rfl, rfl, rfl, rfl, rfl, rfl, rfl, rfl, rfl, rfl, rfl, rfl, rfl, rfl, rfl, rfl, rfl, rfl, rfl, rfl, rfl, rfl, rfl, rfl, rfl, rfl, rfl, rfl, rfl, rfl, rfl, rfl, rfl, rfl, rfl, rfl, rfl, rfl, rfl, rfl, rfl, rfl, rfl, rfl, rfl, rfl, rfl, rfl, rfl, rfl, rfl, rfl, rfl, rfl, rfl, rfl, rfl, rfl, rfl, rfl, rfl, rfl, rfl, rfl, rfl, rfl, rfl, rfl, rfl, rfl, rfl, rfl, rfl, rfl, rfl, rfl, rfl, rfl, rfl, rfl, rfl, rfl⟩

/-- C10: the derived `ProfileResult` depends only on the six accumulator
registers madpsr0..madpsr5 — two register states agreeing on those six
fields derive equal results — and the derivation step leaves the register
state unchanged (it takes the block by shared reference). -/
theorem C10_derivation_noninterference (m1 m2 : MMDC) :
    (derive_step m1).1 = m1 ∧
    (m1.madpsr0 = m2.madpsr0 → m1.madpsr1 = m2.madpsr1 → m1.madpsr2 = m2.madpsr2 →
     m1.madpsr3 = m2.madpsr3 → m1.madpsr4 = m2.madpsr4 → m1.madpsr5 = m2.madpsr5 →
     get_mmdc_profiling_results m1 = get_mmdc_profiling_results m2) := by
  refine ⟨rfl, ?_⟩
  intro h0 h1 h2 h3 h4 h5
  simp only [get_mmdc_profiling_results, h0, h1, h2, h3, h4, h5]

/-- C10 (witness): the theorem applied to two states that agree on the six
accumulators but differ on `mdctl`, `madpcr0` and `madpcr1`. -/
theorem C10_witness :
    get_mmdc_profiling_results
      { MMDC.zero with
        madpsr0 := 50
        madpsr1 := 20
        madpsr4 := 64 } =
    get_mmdc_profiling_results
      { MMDC.zero with
        mdctl := 1
        madpcr0 := 10
        madpcr1 := 99
        madpsr0 := 50
        madpsr1 := 20
        madpsr4 := 64 } :=
  (C10_derivation_noninterference
    { MMDC.zero with
      madpsr0 := 50
      madpsr1 := 20
      madpsr4 := 64 }
    { MMDC.zero with
      mdctl := 1
      madpcr0 := 10
      madpcr1 := 99
      madpsr0 := 50
      madpsr1 := 20
      madpsr4 := 64 }).2 rfl rfl rfl rfl rfl rfl
